import Mathlib

/-!
Shallow embedding of the Enrollex client code (student registration workflow
in `src/src/register.js`, the department verification console in
`src/unnamed/part_001` and the queue dashboard in `src/unnamed/part_002`),
together with theorems settling the specification claims about it.
JS strings are Lean `String`s, JS numbers are binary64 values modelled exactly
(`JsNum`: `NaN`, the infinities, or the finite value as a rational), and server
responses are an explicit inductive datatype.
-/

namespace Enrollex

/-- JS whitespace (the ECMAScript WhiteSpace and LineTerminator sets), as
accepted by `String.prototype.trim`, by the regex class `\s` and by
`ToNumber` (used throughout `src/src/register.js`). -/
def isJsSpace (c : Char) : Bool :=
  c == ' ' || c == '\t' || c == '\n' || c == '\r' || c == '\x0b' || c == '\x0c' ||
  c == '\u00A0' || c == '\u1680' ||
  ('\u2000' ≤ c && c ≤ '\u200A') ||
  c == '\u2028' || c == '\u2029' || c == '\u202F' || c == '\u205F' ||
  c == '\u3000' || c == '\uFEFF'

/-- The guard `!value || (typeof value === 'string' && value.trim() === '')`
of `validateStep` (`src/src/register.js`): for the string-valued form fields
it holds exactly when every character of the value is whitespace (the empty
string included). -/
def isBlank (s : String) : Bool :=
  s.toList.all isJsSpace

/-- Numeric value of a digit string, most significant digit first. -/
def natOfDigits (cs : List Char) : Nat :=
  cs.foldl (fun a c => a * 10 + (c.toNat - 48)) 0

/-- Both-ends trim over a character list using JS whitespace. -/
def trimJs (cs : List Char) : List Char :=
  ((cs.dropWhile isJsSpace).reverse.dropWhile isJsSpace).reverse

/-- A JS number as the validation code observes it: `NaN`, the two
infinities, or a finite binary64 value carried as its exact rational. -/
inductive JsNum where
  | nan
  | posInf
  | negInf
  | val (q : ℚ)
  deriving DecidableEq

/-- Round a rational to the nearest integer, ties to even. -/
def roundHalfEven (m : ℚ) : ℤ :=
  let fl : ℤ := ⌊m⌋
  let frac : ℚ := m - (fl : ℚ)
  if frac < 1 / 2 then fl
  else if 1 / 2 < frac then fl + 1
  else if fl % 2 = 0 then fl else fl + 1

/-- The IEEE binary64 value of an exact rational: round to nearest with ties
to even at 53 significand bits, gradual underflow through the subnormals
to 0, overflow to the infinities. JS numbers are binary64, and
`ToNumber`/`parseFloat` round the exact mathematical value of the accepted
literal this way, so comparing two JS numbers is comparing these rounded
rationals. -/
def roundToDouble (q : ℚ) : JsNum :=
  if q = 0 then JsNum.val 0
  else
    let a : ℚ := |q|
    let e : ℤ := Int.log 2 a
    if 1024 ≤ e then (if 0 < q then JsNum.posInf else JsNum.negInf)
    else
      let scale : ℤ := if e < -1022 then 1074 else 52 - e
      let n : ℤ := roundHalfEven (a * (2 : ℚ) ^ scale)
      if n = 0 then JsNum.val 0
      else
        let v : ℚ := (n : ℚ) * (2 : ℚ) ^ (-scale)
        if (2 : ℚ) ^ (1024 : ℤ) ≤ v then
          (if 0 < q then JsNum.posInf else JsNum.negInf)
        else JsNum.val (if 0 < q then v else -v)

/-- Value of one hexadecimal digit, either case. -/
def hexDigitVal (c : Char) : Option Nat :=
  if '0' ≤ c && c ≤ '9' then some (c.toNat - 48)
  else if 'a' ≤ c && c ≤ 'f' then some (c.toNat - 87)
  else if 'A' ≤ c && c ≤ 'F' then some (c.toNat - 55)
  else none

/-- Digits of a radix-`b` integer literal (`b` is 16, 8 or 2 here); `none`
when the digit run is empty or holds a character outside the radix. -/
def parseRadix (b : Nat) (ds : List Char) : Option Nat :=
  if ds.isEmpty then none
  else
    match ds.mapM (fun c => (hexDigitVal c).filter (fun d => d < b)) with
    | some vs => some (vs.foldl (fun a d => a * b + d) 0)
    | none => none

/-- Consume an exponent part `[eE][+-]?digits` of a JS decimal literal; an
incomplete exponent consumes nothing. Returns the signed exponent and the
remaining input. -/
def parseExponent (cs : List Char) : Int × List Char :=
  match cs with
  | c :: rest =>
    if c == 'e' || c == 'E' then
      let sb : Int × List Char :=
        match rest with
        | '+' :: t => (1, t)
        | '-' :: t => (-1, t)
        | t => (1, t)
      let ds := sb.2.takeWhile Char.isDigit
      if ds.isEmpty then (0, cs)
      else (sb.1 * (natOfDigits ds : Int), sb.2.dropWhile Char.isDigit)
    else (0, cs)
  | [] => (0, [])

/-- Does the input start with the literal `Infinity`? -/
def hasInfinityHead (cs : List Char) : Bool :=
  match cs with
  | 'I' :: 'n' :: 'f' :: 'i' :: 'n' :: 'i' :: 't' :: 'y' :: _ => true
  | _ => false

/-- The signed-decimal branch of `ToNumber` on a trimmed string: optional
sign, then the whole remaining input must be `Infinity` or a decimal
literal (digits with optional fraction, or a bare fraction, with an
optional exponent); anything left over is `NaN`. The exact value is
rounded to binary64. -/
def jsDecimalToNum (cs : List Char) : JsNum :=
  let sb : ℚ × List Char :=
    match cs with
    | '+' :: t => (1, t)
    | '-' :: t => (-1, t)
    | t => (1, t)
  if sb.2 == ['I', 'n', 'f', 'i', 'n', 'i', 't', 'y'] then
    (if 0 < sb.1 then JsNum.posInf else JsNum.negInf)
  else
    let ip := sb.2.takeWhile Char.isDigit
    let r1 := sb.2.dropWhile Char.isDigit
    let frr : List Char × List Char :=
      match r1 with
      | '.' :: t => (t.takeWhile Char.isDigit, t.dropWhile Char.isDigit)
      | _ => ([], r1)
    let er := parseExponent frr.2
    if ip.isEmpty && frr.1.isEmpty then JsNum.nan
    else if !er.2.isEmpty then JsNum.nan
    else
      roundToDouble (sb.1 * ((natOfDigits ip : ℚ) +
        (natOfDigits frr.1 : ℚ) / (10 : ℚ) ^ frr.1.length) * (10 : ℚ) ^ er.1)

/-- JS `ToNumber` on a string: trim JS whitespace, the empty string converts
to `+0`, an unsigned `0x`/`0o`/`0b` prefix takes the radix-integer branch,
and everything else the signed decimal branch (`Infinity`, digits,
fraction, exponent); any other input is `NaN`. This is the coercion the
relational operators of `validateStep` apply to a form string compared
against a number (`formData.tenthPassedOutYear > currentYear`, the
percentage bounds in `src/src/register.js`). -/
def jsStrToNum (s : String) : JsNum :=
  let cs := trimJs s.toList
  match cs with
  | [] => JsNum.val 0
  | '0' :: c :: rest =>
    if c == 'x' || c == 'X' then
      match parseRadix 16 rest with
      | some n => roundToDouble (n : ℚ)
      | none => JsNum.nan
    else if c == 'o' || c == 'O' then
      match parseRadix 8 rest with
      | some n => roundToDouble (n : ℚ)
      | none => JsNum.nan
    else if c == 'b' || c == 'B' then
      match parseRadix 2 rest with
      | some n => roundToDouble (n : ℚ)
      | none => JsNum.nan
    else jsDecimalToNum cs
  | _ => jsDecimalToNum cs

/-- JS `parseFloat`: skip leading whitespace, read the longest prefix that is
a signed decimal literal (`Infinity` allowed, fraction and exponent
included, no radix prefixes), `NaN` when no digits are found, and round
the exact value to binary64. Used by the marks check of `validateStep`
step 3 (`src/src/register.js`). -/
def parseFloatJs (s : String) : JsNum :=
  let cs := s.toList.dropWhile isJsSpace
  let sb : ℚ × List Char :=
    match cs with
    | '+' :: t => (1, t)
    | '-' :: t => (-1, t)
    | t => (1, t)
  if hasInfinityHead sb.2 then
    (if 0 < sb.1 then JsNum.posInf else JsNum.negInf)
  else
    let ip := sb.2.takeWhile Char.isDigit
    let r1 := sb.2.dropWhile Char.isDigit
    let frr : List Char × List Char :=
      match r1 with
      | '.' :: t => (t.takeWhile Char.isDigit, t.dropWhile Char.isDigit)
      | _ => ([], r1)
    if ip.isEmpty && frr.1.isEmpty then JsNum.nan
    else
      let er := parseExponent frr.2
      roundToDouble (sb.1 * ((natOfDigits ip : ℚ) +
        (natOfDigits frr.1 : ℚ) / (10 : ℚ) ^ frr.1.length) * (10 : ℚ) ^ er.1)

/-- JS truthiness of a number (`NaN` and `0` are falsy), applied to the
`parseFloat` results in `validateStep` step 3. -/
def numTruthy : JsNum → Bool
  | JsNum.nan => false
  | JsNum.val q => decide (q ≠ 0)
  | _ => true

/-- The JS `<` comparison on numbers: false whenever either side is `NaN`;
finite values compare as their exact rationals. -/
def jsNumLt : JsNum → JsNum → Bool
  | JsNum.val x, JsNum.val y => decide (x < y)
  | JsNum.val _, JsNum.posInf => true
  | JsNum.negInf, JsNum.val _ => true
  | JsNum.negInf, JsNum.posInf => true
  | _, _ => false

/-- The relational `s < bound` between a form string and a number literal:
`ToNumber` on the string, false on `NaN`. -/
def jsLtNum (s : String) (bound : ℚ) : Bool :=
  jsNumLt (jsStrToNum s) (JsNum.val bound)

/-- The relational `s > bound` between a form string and a number literal:
`ToNumber` on the string, false on `NaN`. -/
def jsGtNum (s : String) (bound : ℚ) : Bool :=
  jsNumLt (JsNum.val bound) (jsStrToNum s)

/-- The email test `/^[^\s@]+@[^\s@]+\.[^\s@]+$/.test(s)` from `validateStep`
step 0 (`src/src/register.js`): a nonempty local part with no whitespace
and no `@`, one `@`, and a domain with no whitespace and no `@` in which
some dot has at least one character before it and one after it within the
domain (further dots may sit anywhere, swallowed by the `[^\s@]+` runs
through backtracking, so `x@a.b.` and `x@.a.b` pass). -/
def emailRegexTest (s : String) : Bool :=
  let cs := s.toList
  let lp := cs.takeWhile (fun c => c != '@')
  let rest := cs.dropWhile (fun c => c != '@')
  match rest with
  | [] => false
  | _ :: dom =>
    !lp.isEmpty && !dom.isEmpty &&
    lp.all (fun c => !(isJsSpace c)) &&
    dom.all (fun c => !(isJsSpace c) && (c != '@')) &&
    dom.tail.dropLast.contains '.'


/-- The string-valued fields of the `formData` aggregate of
`src/src/register.js` that the validation engine and the address mirror
read (the file-upload slots are carried separately, see `StagedEntry`). -/
structure FormData where
  studentFullName : String
  gender : String
  dateOfBirth : String
  nationality : String
  studentContactNo : String
  studentEmail : String
  parentContactNo : String
  correspondenceAddress : String
  correspondenceCity : String
  correspondenceState : String
  correspondenceCountry : String
  correspondencePostalCode : String
  permanentAddress : String
  permanentCity : String
  permanentState : String
  permanentCountry : String
  permanentPostalCode : String
  tenthSchoolName : String
  tenthBoardUniversity : String
  tenthPassedOutYear : String
  collegeInstitutionName : String
  boardUniversity : String
  twelfthPassedOutYear : String
  twelfthTotalMarks : String
  twelfthScoredMarks : String
  twelfthPercentage : String
  fatherName : String
  motherName : String
  fatherMobile : String
  motherMobile : String
  department : String
  programName : String
  admissionType : String
  juApplication : String
  deriving DecidableEq

/-- Dynamic field access `formData[field]`, as performed by the required-field
loop of `validateStep`; an unknown name reads as the empty string (a falsy
value, like `undefined`). -/
def FormData.get (fd : FormData) (field : String) : String :=
  match field with
  | "studentFullName" => fd.studentFullName
  | "gender" => fd.gender
  | "dateOfBirth" => fd.dateOfBirth
  | "nationality" => fd.nationality
  | "studentContactNo" => fd.studentContactNo
  | "studentEmail" => fd.studentEmail
  | "parentContactNo" => fd.parentContactNo
  | "correspondenceAddress" => fd.correspondenceAddress
  | "correspondenceCity" => fd.correspondenceCity
  | "correspondenceState" => fd.correspondenceState
  | "correspondenceCountry" => fd.correspondenceCountry
  | "correspondencePostalCode" => fd.correspondencePostalCode
  | "permanentAddress" => fd.permanentAddress
  | "permanentCity" => fd.permanentCity
  | "permanentState" => fd.permanentState
  | "permanentCountry" => fd.permanentCountry
  | "permanentPostalCode" => fd.permanentPostalCode
  | "tenthSchoolName" => fd.tenthSchoolName
  | "tenthBoardUniversity" => fd.tenthBoardUniversity
  | "tenthPassedOutYear" => fd.tenthPassedOutYear
  | "collegeInstitutionName" => fd.collegeInstitutionName
  | "boardUniversity" => fd.boardUniversity
  | "twelfthPassedOutYear" => fd.twelfthPassedOutYear
  | "twelfthTotalMarks" => fd.twelfthTotalMarks
  | "twelfthScoredMarks" => fd.twelfthScoredMarks
  | "twelfthPercentage" => fd.twelfthPercentage
  | "fatherName" => fd.fatherName
  | "motherName" => fd.motherName
  | "fatherMobile" => fd.fatherMobile
  | "motherMobile" => fd.motherMobile
  | "department" => fd.department
  | "programName" => fd.programName
  | "admissionType" => fd.admissionType
  | "juApplication" => fd.juApplication
  | _ => ""

/-- The initial `useState` value of `formData` in `src/src/register.js`:
every field blank except `nationality: 'Indian'` and the two country fields
defaulting to `'India'`. -/
def initialFormData : FormData where
  studentFullName := ""
  gender := ""
  dateOfBirth := ""
  nationality := "Indian"
  studentContactNo := ""
  studentEmail := ""
  parentContactNo := ""
  correspondenceAddress := ""
  correspondenceCity := ""
  correspondenceState := ""
  correspondenceCountry := "India"
  correspondencePostalCode := ""
  permanentAddress := ""
  permanentCity := ""
  permanentState := ""
  permanentCountry := "India"
  permanentPostalCode := ""
  tenthSchoolName := ""
  tenthBoardUniversity := ""
  tenthPassedOutYear := ""
  collegeInstitutionName := ""
  boardUniversity := ""
  twelfthPassedOutYear := ""
  twelfthTotalMarks := ""
  twelfthScoredMarks := ""
  twelfthPercentage := ""
  fatherName := ""
  motherName := ""
  fatherMobile := ""
  motherMobile := ""
  department := ""
  programName := ""
  admissionType := ""
  juApplication := ""

/-- The `requiredFieldsByStep` table of `validateStep`
(`src/src/register.js`): one fixed list of required form field names per
step index 0..6, the documents step (index 6) requiring none. -/
def requiredFieldsByStep : List (List String) :=
  [ ["studentFullName", "gender", "dateOfBirth", "nationality",
     "studentContactNo", "studentEmail", "parentContactNo"],
    ["correspondenceAddress", "correspondenceCity", "correspondenceState",
     "correspondencePostalCode"],
    ["tenthSchoolName", "tenthBoardUniversity", "tenthPassedOutYear",
     "collegeInstitutionName", "boardUniversity", "twelfthPassedOutYear"],
    ["twelfthTotalMarks", "twelfthScoredMarks", "twelfthPercentage"],
    ["fatherName", "motherName", "fatherMobile", "motherMobile"],
    ["department", "programName", "admissionType", "juApplication"],
    [] ]

/-- The `fieldLabels` lookup of `validateStep` mapping a field name to its
human-readable label, falling back to the raw name
(`fieldLabels[field] || field`). -/
def fieldLabel (field : String) : String :=
  match field with
  | "studentFullName" => "Student Full Name"
  | "gender" => "Gender"
  | "dateOfBirth" => "Date of Birth"
  | "nationality" => "Nationality"
  | "studentContactNo" => "Student Contact Number"
  | "studentEmail" => "Student Email"
  | "parentContactNo" => "Parent Contact Number"
  | "correspondenceAddress" => "Correspondence Address"
  | "correspondenceCity" => "Correspondence City"
  | "correspondenceState" => "Correspondence State"
  | "correspondencePostalCode" => "Correspondence Postal Code"
  | "tenthSchoolName" => "10th School Name"
  | "tenthBoardUniversity" => "10th Board/University"
  | "tenthPassedOutYear" => "10th Passed Out Year"
  | "collegeInstitutionName" => "College/Institution Name"
  | "boardUniversity" => "12th Board/University"
  | "twelfthPassedOutYear" => "12th Passed Out Year"
  | "twelfthTotalMarks" => "12th Total Marks"
  | "twelfthScoredMarks" => "12th Scored Marks"
  | "twelfthPercentage" => "12th Percentage"
  | "fatherName" => "Father\x27s Name"
  | "motherName" => "Mother\x27s Name"
  | "fatherMobile" => "Father\x27s Mobile"
  | "motherMobile" => "Mother\x27s Mobile"
  | "department" => "Department"
  | "programName" => "Program Name"
  | "admissionType" => "Admission Type"
  | "juApplication" => "JU Application Number"
  | _ => field

/-- The step-specific early returns of `validateStep`
(`src/src/register.js`), in source order: step 0 checks the OTP flag, the
email regex and the two phone lengths; step 2 the two passed-out-year
windows against `currentYear` (from `new Date().getFullYear()`, a
parameter here); step 3 the marks comparison and the percentage bounds;
step 4 the parents' mobile lengths. Each guard follows the JS truthiness
of the field (`formData.x && ...`). `none` means no early return fires. -/
def stepChecks (fd : FormData) (otpVerified : Bool) (currentYear : Int)
    (stepIndex : Nat) : Option String :=
  if stepIndex = 0 then
    if !otpVerified then
      some "Please verify the parent\x27s phone number with OTP before proceeding to the next step."
    else if (fd.studentEmail != "") && !emailRegexTest fd.studentEmail then
      some "Please enter a valid email address."
    else if (fd.studentContactNo != "") && decide (fd.studentContactNo.length < 10) then
      some "Please enter a valid contact number (at least 10 digits)."
    else if (fd.parentContactNo != "") && decide (fd.parentContactNo.length < 10) then
      some "Please enter a valid parent contact number (at least 10 digits)."
    else none
  else if stepIndex = 2 then
    if (fd.tenthPassedOutYear != "") &&
        (jsGtNum fd.tenthPassedOutYear (currentYear : ℚ) ||
         jsLtNum fd.tenthPassedOutYear ((currentYear : ℚ) - 15)) then
      some "Please enter a valid 10th passed out year."
    else if (fd.twelfthPassedOutYear != "") &&
        (jsGtNum fd.twelfthPassedOutYear (currentYear : ℚ) ||
         jsLtNum fd.twelfthPassedOutYear ((currentYear : ℚ) - 10)) then
      some "Please enter a valid 12th passed out year."
    else none
  else if stepIndex = 3 then
    let totalMarks := parseFloatJs fd.twelfthTotalMarks
    let scoredMarks := parseFloatJs fd.twelfthScoredMarks
    if numTruthy totalMarks && numTruthy scoredMarks && jsNumLt totalMarks scoredMarks then
      some "Scored marks cannot be greater than total marks."
    else if (fd.twelfthPercentage != "") &&
        (jsLtNum fd.twelfthPercentage 0 || jsGtNum fd.twelfthPercentage 100) then
      some "Please enter a valid percentage (0-100)."
    else none
  else if stepIndex = 4 then
    if (fd.fatherMobile != "") && decide (fd.fatherMobile.length < 10) then
      some "Please enter a valid father\x27s mobile number (at least 10 digits)."
    else if (fd.motherMobile != "") && decide (fd.motherMobile.length < 10) then
      some "Please enter a valid mother\x27s mobile number (at least 10 digits)."
    else none
  else none

/-- The `missingFields` list collected by the required-field loop of
`validateStep`: the required names of the step whose form value is missing
or blank after trimming, in table order. -/
def missingFields (fd : FormData) (stepIndex : Nat) : List String :=
  (requiredFieldsByStep.getD stepIndex []).filter (fun f => isBlank (fd.get f))

/-- The single aggregated missing-field message of `validateStep`:
`Please fill in the following required fields:` followed by the
human-readable labels joined by a comma. -/
def missingMessage (fd : FormData) (stepIndex : Nat) : String :=
  "Please fill in the following required fields: " ++
    String.intercalate ", " ((missingFields fd stepIndex).map fieldLabel)

/-- `validateStep(stepIndex)` of `src/src/register.js`: collects the blank
required fields, runs the step-specific early returns in source order
(each ends the call with its own message), and otherwise reports either
`null` (no missing field) or the one aggregated missing-field message.
The result is a single verdict, never a per-field error list. -/
def validateStep (fd : FormData) (otpVerified : Bool) (currentYear : Int)
    (stepIndex : Nat) : Option String :=
  match stepChecks fd otpVerified currentYear stepIndex with
  | some msg => some msg
  | none =>
    if missingFields fd stepIndex = [] then none
    else some (missingMessage fd stepIndex)

/-- Truth of no early return firing in `validateStep`: the cross-field rules
of the step (OTP flag, email regex, phone lengths, year windows, marks
bounds) all pass. -/
def crossFieldOk (fd : FormData) (otpVerified : Bool) (currentYear : Int)
    (stepIndex : Nat) : Bool :=
  (stepChecks fd otpVerified currentYear stepIndex).isNone

/-- The `formSteps` configuration array ids of `src/src/register.js`; its
length (7) gives the `formSteps.length - 1` cap used by `nextStep`. -/
def formSteps : List String :=
  ["basic", "address", "academic", "subjects", "family", "university", "documents"]

/-- The navigation-relevant component state of `StudentRegistration`:
`currentStep` (the `useState(0)` index) and the transient `message`. -/
structure RegState where
  currentStep : Nat
  message : String
  deriving DecidableEq

/-- `nextStep` of `src/src/register.js`: validate the current step; on an
error surface the message and stay; otherwise advance only while below
`formSteps.length - 1` and reset the message. -/
def nextStep (fd : FormData) (otpVerified : Bool) (currentYear : Int)
    (st : RegState) : RegState :=
  match validateStep fd otpVerified currentYear st.currentStep with
  | some e => { st with message := e }
  | none =>
    if st.currentStep < formSteps.length - 1 then
      { currentStep := st.currentStep + 1, message := "" }
    else st

/-- `prevStep` of `src/src/register.js`: decrement only while above 0 and
reset the message; no validation. -/
def prevStep (st : RegState) : RegState :=
  if 0 < st.currentStep then
    { currentStep := st.currentStep - 1, message := "" }
  else st

/-- A navigation event: a click of Next (with whatever the form, OTP flag and
clock hold at that instant) or of Previous. -/
inductive NavOp where
  | next (fd : FormData) (otpVerified : Bool) (currentYear : Int)
  | prev
  deriving DecidableEq

/-- One navigation event applied to the component state. -/
def applyNav (st : RegState) : NavOp → RegState
  | NavOp.next fd otp year => nextStep fd otp year st
  | NavOp.prev => prevStep st

/-- A sequence of navigation events applied in order. -/
def runNav (st : RegState) : List NavOp → RegState
  | [] => st
  | op :: ops => runNav (applyNav st op) ops

/-- `copyCorrespondenceAddress` of `src/src/register.js`, run by the effect
watching the `sameAsCorrespondence` toggle: on `true` it copies the five
correspondence address fields into the permanent ones; on `false` it sets
four of them to the empty string and `permanentCountry` to `'India'`. -/
def copyCorrespondenceAddress (sameAsCorrespondence : Bool) (fd : FormData) : FormData :=
  if sameAsCorrespondence then
    { fd with
      permanentAddress := fd.correspondenceAddress
      permanentCity := fd.correspondenceCity
      permanentState := fd.correspondenceState
      permanentCountry := fd.correspondenceCountry
      permanentPostalCode := fd.correspondencePostalCode }
  else
    { fd with
      permanentAddress := ""
      permanentCity := ""
      permanentState := ""
      permanentCountry := "India"
      permanentPostalCode := "" }

/-- The client-side gate of `handleRegistration` (`src/src/register.js`)
before any network request: bail out while a submission is in flight, on a
`validateStep` error for the current step, or when `juApplication` is
missing or blank after trimming; `true` means the submission request is
issued. -/
def handleRegistrationGate (loading : Bool) (fd : FormData) (otpVerified : Bool)
    (currentYear : Int) (currentStep : Nat) : Bool :=
  if loading then false
  else
    match validateStep fd otpVerified currentYear currentStep with
    | some _ => false
    | none => !(isBlank fd.juApplication)

/-- Outcome of one HTTP request as the client code observes it: a reply with
`response.ok` and the JSON fields `success` and optional `error`, or a
thrown network failure. -/
inductive ApiResponse where
  | reply (httpOk : Bool) (success : Bool) (error : Option String)
  | netFail
  deriving DecidableEq

/-- The OTP-verification component state touched by `verifyOtp`:
the `otpVerified` flag and the transient `message`. -/
structure OtpState where
  otpVerified : Bool
  message : String
  deriving DecidableEq

/-- `verifyOtp` of `src/src/register.js` for a given server outcome: a blank
code ends the call with `Please enter the OTP` before any request;
otherwise the status message is set, the request made, and only
`response.ok && data.success` sets the `otpVerified` flag; a
server-reported failure surfaces `data.error` (or the fallback text) and a
thrown network failure is swallowed by the catch block, both leaving the
flag untouched. -/
def verifyOtpRun (otp : String) (resp : ApiResponse) (st : OtpState) : OtpState :=
  if isBlank otp then
    { st with message := "Please enter the OTP" }
  else
    let st1 : OtpState := { st with message := "Verifying OTP..." }
    match resp with
    | ApiResponse.reply httpOk success err =>
      if httpOk && success then
        { otpVerified := true, message := "✅ Parent phone number verified successfully!" }
      else
        { st1 with message := err.getD "Invalid OTP. Please try again." }
    | ApiResponse.netFail => st1

/-- A file as the browser hands it to `handleFileUpload`: name, MIME type,
byte size and content bytes. -/
structure JsFile where
  name : String
  type : String
  size : Nat
  bytes : List Nat
  deriving DecidableEq

/-- The staged entry `handleFileUpload` stores into `formData[fieldName]`:
the bytes read into memory plus filename, MIME type and size. -/
structure StagedEntry where
  file_data : List Nat
  filename : String
  file_type : String
  file_size : Nat
  deriving DecidableEq

/-- Outcome of file selection in `handleFileUpload`: a rejection message, or
the entry staged under its document field name. Both are local effects:
the function issues no network request. -/
inductive StageResult where
  | rejected (message : String)
  | staged (fieldName : String) (entry : StagedEntry)
  deriving DecidableEq

/-- The `allowedTypes` MIME whitelist of `handleFileUpload`
(`src/src/register.js`). -/
def allowedTypes : List String :=
  ["image/jpeg", "image/png", "image/jpg", "application/pdf"]

/-- `handleFileUpload` of `src/src/register.js`: reject a file over
`5 * 1024 * 1024` bytes, then reject a MIME type outside `allowedTypes`,
and otherwise read the bytes and stage them under the document field name
together with filename, type and size (the successful `FileReader` path). -/
def handleFileUpload (file : JsFile) (fieldName : String) : StageResult :=
  if file.size > 5 * 1024 * 1024 then
    StageResult.rejected "File size should not exceed 5MB"
  else if !(allowedTypes.contains file.type) then
    StageResult.rejected "Please upload only JPEG, PNG, or PDF files"
  else
    StageResult.staged fieldName
      { file_data := file.bytes
        filename := file.name
        file_type := file.type
        file_size := file.size }

/-- One entry of the `documentTypes` checklist of the Department Verification
Console (`src/unnamed/part_001`). -/
structure DocType where
  id : String
  name : String
  required : Bool
  backendField : String
  deriving DecidableEq

/-- The `documentTypes` array of the Department Verification Console
(`src/unnamed/part_001`): ten document kinds, six of them required. -/
def documentTypes : List DocType :=
  [ { id := "10th_marksheet", name := "10th Marksheet", required := true,
      backendField := "tenthMarksheetUpload" },
    { id := "12th_marksheet", name := "12th Marksheet", required := true,
      backendField := "twelfthMarksheetUpload" },
    { id := "transfer_certificate", name := "Transfer Certificate", required := true,
      backendField := "transferCertificateUpload" },
    { id := "character_certificate", name := "Character Certificate", required := true,
      backendField := "conductCertificateUpload" },
    { id := "caste_certificate", name := "Caste Certificate", required := false,
      backendField := "casteCertificateUpload" },
    { id := "income_certificate", name := "Income Certificate", required := false,
      backendField := "incomeCertificateUpload" },
    { id := "domicile_certificate", name := "Domicile Certificate", required := false,
      backendField := "domicileCertificateUpload" },
    { id := "migration_certificate", name := "Migration Certificate", required := false,
      backendField := "migrationCertificateUpload" },
    { id := "passport_photos", name := "Passport Size Photos", required := true,
      backendField := "photographUpload" },
    { id := "aadhar_card", name := "Aadhar Card Copy", required := true,
      backendField := "aadhaarUpload" } ]

/-- One per-document verification record of the console's
`verificationData` map. -/
structure DocEntry where
  verified : Bool
  notes : String
  verifiedAt : Option String
  verifiedBy : Option String
  deriving DecidableEq

/-- The `verificationData` JS object: document-type id to its record. -/
def VerificationMap := List (String × DocEntry)

/-- Property access `verificationData[id]` with a possibly absent key. -/
def lookupDoc (m : VerificationMap) (id : String) : Option DocEntry :=
  (m.find? (fun p => p.1 == id)).map (fun p => p.2)

/-- The test `verificationData[doc.id]?.verified === true` of
`saveVerification` (`src/unnamed/part_001`): false when the key is absent. -/
def verifiedInMap (m : VerificationMap) (id : String) : Bool :=
  match lookupDoc m id with
  | some e => e.verified
  | none => false

/-- The `allRequiredVerified` recomputation inside `saveVerification`
(`src/unnamed/part_001`): every `documentTypes` entry with
`required: true` has `verified === true` in the current map. -/
def allRequiredVerified (m : VerificationMap) : Bool :=
  (documentTypes.filter (fun d => d.required)).all (fun d => verifiedInMap m d.id)

/-- The follow-up of `saveVerification` (`src/unnamed/part_001`) after the
PUT of the document map returns: only on `response.ok && data.success` the
console recomputes `allRequiredVerified` and, exactly when it holds,
issues the separate `updateStudentStatus(.., 'documents_verified')` call;
the result is the status value of that call, `none` when no status call is
made. -/
def saveVerificationStatusCall (resp : ApiResponse) (m : VerificationMap) :
    Option String :=
  match resp with
  | ApiResponse.reply httpOk success _ =>
    if httpOk && success then
      if allRequiredVerified m then some "documents_verified" else none
    else none
  | ApiResponse.netFail => none

/-- A student item as the pending-verification endpoint returns it to the
Department Verification Console (`src/unnamed/part_001`); only the fields
the display filter reads are modelled. -/
structure VStudent where
  student_id : String
  name : String
  email : String
  status : String
  attendance : String
  deriving DecidableEq

/-- The display filter of `loadStudentsForVerification`
(`src/unnamed/part_001`): of the students the endpoint returned, keep
exactly those with `status === 'photo_uploaded'` and
`attendance === 'present'`. -/
def loadStudentsFilter (students : List VStudent) : List VStudent :=
  students.filter (fun s =>
    s.status == "photo_uploaded" && s.attendance == "present")

/-- A student row as the Queue Dashboard (`src/unnamed/part_002`) receives
it; `registrationDate` is its timestamp (the value `new Date(..)`
comparison in the sort uses) and an empty `department` plays the falsy
value defaulted to `'Unknown'`. -/
structure QStudent where
  name : String
  studentId : String
  department : String
  attendance : String
  status : String
  registrationDate : Nat
  deriving DecidableEq

/-- The inclusion test of the `groupedStudents` reduce
(`src/unnamed/part_002`): keep a student while
`attendance !== 'absent' && status !== 'verified'`. -/
def queueEligible (s : QStudent) : Bool :=
  (s.attendance != "absent") && (s.status != "verified")

/-- The grouping key `student.department || 'Unknown'`. -/
def deptOf (s : QStudent) : String :=
  if s.department == "" then "Unknown" else s.department

/-- The queue ordering relation: ascending `registrationDate`. -/
def regLE (a b : QStudent) : Prop :=
  a.registrationDate ≤ b.registrationDate

instance : DecidableRel regLE :=
  fun a b => inferInstanceAs (Decidable (a.registrationDate ≤ b.registrationDate))

instance : IsTotal QStudent regLE :=
  ⟨fun a b => Nat.le_total a.registrationDate b.registrationDate⟩

instance : IsTrans QStudent regLE :=
  ⟨fun _ _ _ hab hbc => Nat.le_trans hab hbc⟩

/-- One department's queue as derived by the dashboard
(`src/unnamed/part_002`): the reduce collects, in arrival order, the
eligible students whose grouping key is the department, and the follow-up
sort orders the group ascending by registration date (JS `Array.sort` is
stable, as is insertion sort). -/
def groupedStudents (students : List QStudent) (dept : String) : List QStudent :=
  List.insertionSort regLE
    (students.filter (fun s => queueEligible s && (deptOf s == dept)))

/-- The `topThree` slice the dashboard renders per department:
`deptStudents.slice(0, 3)`. -/
def topThree (students : List QStudent) (dept : String) : List QStudent :=
  (groupedStudents students dept).take 3

/-- The remainder footnote of the dashboard: rendered only when
`queueLength > 3`, showing `queueLength - 3`. -/
def remainderNote (students : List QStudent) (dept : String) : Option Nat :=
  let queueLength := (groupedStudents students dept).length
  if 3 < queueLength then some (queueLength - 3) else none

/-- A file of six megabytes, over the staging limit. -/
def sampleBigFile : JsFile :=
  { name := "doc.pdf", type := "application/pdf", size := 6 * 1024 * 1024, bytes := [] }

/-- A mixed roster for the queue dashboard: five eligible students in
department A, one verified in A, one absent in B. -/
def sampleQueue : List QStudent :=
  [ { name := "s1", studentId := "1", department := "A", attendance := "present",
      status := "photo_uploaded", registrationDate := 10 },
    { name := "s2", studentId := "2", department := "A", attendance := "present",
      status := "photo_uploaded", registrationDate := 4 },
    { name := "s3", studentId := "3", department := "A", attendance := "present",
      status := "pending", registrationDate := 8 },
    { name := "s4", studentId := "4", department := "A", attendance := "present",
      status := "photo_uploaded", registrationDate := 6 },
    { name := "s5", studentId := "5", department := "A", attendance := "present",
      status := "photo_uploaded", registrationDate := 2 },
    { name := "s6", studentId := "6", department := "A", attendance := "present",
      status := "verified", registrationDate := 1 },
    { name := "s7", studentId := "7", department := "B", attendance := "absent",
      status := "photo_uploaded", registrationDate := 3 } ]

/-- A present student in the terminal `documents_verified` status. -/
def sampleVerifiedStudent : QStudent :=
  { name := "X", studentId := "S1", department := "CSE", attendance := "present",
    status := "documents_verified", registrationDate := 7 }

/-- C1: in `saveVerification`, after the document-verification map is
successfully persisted (`response.ok` with `success: true`), the
`documents_verified` status-transition call is issued if and only if each
of the six `required: true` document types — 10th marksheet, 12th
marksheet, transfer certificate, character certificate, passport photos,
aadhar card — has `verified: true` in the current verification map;
otherwise no status call is made. -/
theorem saveVerification_status_transition_iff_required
    (m : VerificationMap) (e : Option String) :
    saveVerificationStatusCall (ApiResponse.reply true true e) m =
      (if verifiedInMap m "10th_marksheet" && verifiedInMap m "12th_marksheet" &&
          verifiedInMap m "transfer_certificate" && verifiedInMap m "character_certificate" &&
          verifiedInMap m "passport_photos" && verifiedInMap m "aadhar_card"
       then some "documents_verified" else none) := by
  have h : allRequiredVerified m =
      (verifiedInMap m "10th_marksheet" && verifiedInMap m "12th_marksheet" &&
       verifiedInMap m "transfer_certificate" && verifiedInMap m "character_certificate" &&
       verifiedInMap m "passport_photos" && verifiedInMap m "aadhar_card") := by
    show (verifiedInMap m "10th_marksheet" &&
        (verifiedInMap m "12th_marksheet" &&
         (verifiedInMap m "transfer_certificate" &&
          (verifiedInMap m "character_certificate" &&
           (verifiedInMap m "passport_photos" &&
            (verifiedInMap m "aadhar_card" && true)))))) = _
    simp [Bool.and_assoc]
  show (if allRequiredVerified m then some "documents_verified" else none) = _
  rw [h]

/-- C2: the department console's loaded actionable list keeps a student
returned by the pending-verification endpoint exactly when their status is
`photo_uploaded` and their attendance is `present`; every other returned
student is filtered out before display. -/
theorem pending_queue_filter_iff (students : List VStudent) (s : VStudent) :
    s ∈ loadStudentsFilter students ↔
      s ∈ students ∧ s.status = "photo_uploaded" ∧ s.attendance = "present" := by
  simp [loadStudentsFilter, List.mem_filter, and_assoc]

/-- C6 counterexample: toggling the mirror off does not blank all five
permanent fields — on the initial form it leaves
`permanentCountry = "India"`. -/
theorem address_mirror_off_not_all_blank :
    ¬ ((copyCorrespondenceAddress false initialFormData).permanentAddress = "" ∧
       (copyCorrespondenceAddress false initialFormData).permanentCity = "" ∧
       (copyCorrespondenceAddress false initialFormData).permanentState = "" ∧
       (copyCorrespondenceAddress false initialFormData).permanentCountry = "" ∧
       (copyCorrespondenceAddress false initialFormData).permanentPostalCode = "") := by
  decide

/-- C6 (amended): toggling the mirror on copies exactly the five
correspondence fields (address, city, state, country, postal code) into
the permanent fields, leaving every other field unchanged; toggling it
off blanks the permanent address, city, state and postal code and resets
the permanent country to the default `India`, rather than restoring prior
manual entries. -/
theorem address_mirror_copy_and_reset (fd : FormData) :
    copyCorrespondenceAddress true fd =
      { fd with
        permanentAddress := fd.correspondenceAddress
        permanentCity := fd.correspondenceCity
        permanentState := fd.correspondenceState
        permanentCountry := fd.correspondenceCountry
        permanentPostalCode := fd.correspondencePostalCode } ∧
    copyCorrespondenceAddress false fd =
      { fd with
        permanentAddress := ""
        permanentCity := ""
        permanentState := ""
        permanentCountry := "India"
        permanentPostalCode := "" } :=
  ⟨rfl, rfl⟩

/-- C8: file staging rejects a file over 5MB with the size message before
anything else, rejects a MIME type outside the JPEG/PNG/PDF whitelist with
its specific message, and stages a valid file of at most 5MB under its
document field name with its bytes, filename, type and size; the function
performs no network request in any branch. -/
theorem handleFileUpload_staging_rules (file : JsFile) (fieldName : String) :
    (5 * 1024 * 1024 < file.size →
        handleFileUpload file fieldName =
          StageResult.rejected "File size should not exceed 5MB")
    ∧ (file.size ≤ 5 * 1024 * 1024 → allowedTypes.contains file.type = false →
        handleFileUpload file fieldName =
          StageResult.rejected "Please upload only JPEG, PNG, or PDF files")
    ∧ (file.size ≤ 5 * 1024 * 1024 → allowedTypes.contains file.type = true →
        handleFileUpload file fieldName =
          StageResult.staged fieldName
            { file_data := file.bytes, filename := file.name,
              file_type := file.type, file_size := file.size }) := by
  refine ⟨fun h => ?_, fun h ht => ?_, fun h ht => ?_⟩
  · rw [handleFileUpload, if_pos h]
  · rw [handleFileUpload, if_neg (Nat.not_lt.mpr h)]
    simp only [ht]
    rfl
  · rw [handleFileUpload, if_neg (Nat.not_lt.mpr h)]
    simp only [ht]
    rfl

/-- C8 witness: a 6MB PDF is rejected at selection time with the size
message. -/
theorem handleFileUpload_staging_rules_witness :
    handleFileUpload sampleBigFile "aadhaarUpload" =
      StageResult.rejected "File size should not exceed 5MB" :=
  (handleFileUpload_staging_rules sampleBigFile "aadhaarUpload").1 (by decide)

/-- C10: for every form snapshot the documents step validates trivially —
`validateStep` at index 6 has an empty required list and no extra rules,
so it returns `null` — and with that step current the only
submission-specific gate left in `handleRegistration` (besides the
in-flight guard) is that `juApplication` is non-blank after trimming. -/
theorem documents_step_validation_trivial (fd : FormData) (otp : Bool) (year : Int) :
    validateStep fd otp year 6 = none ∧
    handleRegistrationGate false fd otp year 6 = !(isBlank fd.juApplication) :=
  ⟨rfl, rfl⟩

/-- C3: the queue dashboard's department group holds exactly the students
that are neither absent nor in status `verified` and whose grouping key is
that department; the group is sorted ascending by registration timestamp;
the rendered top-three list is the prefix the rest of the group extends;
and the remainder footnote shows the count of the students beyond the
first three exactly when the group has more than three. -/
theorem queue_dashboard_projection (students : List QStudent) (dept : String) :
    (∀ s, s ∈ groupedStudents students dept ↔
        s ∈ students ∧ s.attendance ≠ "absent" ∧ s.status ≠ "verified" ∧
          deptOf s = dept)
    ∧ List.Sorted regLE (groupedStudents students dept)
    ∧ topThree students dept ++ (groupedStudents students dept).drop 3 =
        groupedStudents students dept
    ∧ (3 < (groupedStudents students dept).length →
        remainderNote students dept =
          some ((groupedStudents students dept).length - 3))
    ∧ ((groupedStudents students dept).length ≤ 3 →
        remainderNote students dept = none) := by
  refine ⟨fun s => ?_, ?_, ?_, fun h => ?_, fun h => ?_⟩
  · rw [groupedStudents, List.mem_insertionSort, List.mem_filter]
    simp [queueEligible, and_assoc]
  · exact List.sorted_insertionSort regLE _
  · exact List.take_append_drop 3 _
  · rw [remainderNote]
    simp only [if_pos h]
  · rw [remainderNote]
    simp only [if_neg (Nat.not_lt.mpr h)]

/-- C3 witness: on the sample roster, department A has five queued students,
so the footnote shows the two beyond the top three, and department B has
none, so no footnote is rendered. -/
theorem queue_dashboard_projection_witness :
    remainderNote sampleQueue "A" =
      some ((groupedStudents sampleQueue "A").length - 3) ∧
    remainderNote sampleQueue "B" = none :=
  ⟨(queue_dashboard_projection sampleQueue "A").2.2.2.1 (by decide),
   (queue_dashboard_projection sampleQueue "B").2.2.2.2 (by decide)⟩

/-- C9: a student whose status is the terminal `documents_verified` and who
is not absent is not removed by the dashboard projection — only the exact
string `verified` is excluded — so the student still appears in their
department's queue group. -/
theorem documents_verified_student_stays_in_queue
    (students : List QStudent) (s : QStudent)
    (hmem : s ∈ students) (hstatus : s.status = "documents_verified")
    (hatt : s.attendance ≠ "absent") :
    s ∈ groupedStudents students (deptOf s) := by
  rw [groupedStudents, List.mem_insertionSort, List.mem_filter]
  refine ⟨hmem, ?_⟩
  rw [queueEligible, hstatus]
  simp [hatt]

/-- C9 witness: a present `documents_verified` student in a one-element
roster appears in their department's group. -/
theorem documents_verified_student_stays_in_queue_witness :
    sampleVerifiedStudent ∈
      groupedStudents [sampleVerifiedStudent] (deptOf sampleVerifiedStudent) :=
  documents_verified_student_stays_in_queue [sampleVerifiedStudent]
    sampleVerifiedStudent (List.mem_singleton.mpr rfl) rfl (by decide)

/-- C5: for every sequence of Next/Previous clicks from any in-range state,
`currentStep` stays within 0..6 — `nextStep` never advances past index 6
(the cap `formSteps.length - 1`), `prevStep` never goes below 0, and the
index is a natural number, so it can never be negative. -/
theorem nav_currentStep_bounded (st : RegState) (ops : List NavOp)
    (h : st.currentStep ≤ 6) : (runNav st ops).currentStep ≤ 6 := by
  induction ops generalizing st with
  | nil => exact h
  | cons op ops ih =>
    rw [runNav]
    apply ih
    cases op with
    | next fd otp year =>
      show (nextStep fd otp year st).currentStep ≤ 6
      rw [nextStep]
      cases validateStep fd otp year st.currentStep with
      | some e => exact h
      | none =>
        by_cases hlt : st.currentStep < formSteps.length - 1
        · rw [if_pos hlt]
          have h6 : st.currentStep < 6 := by
            simpa [formSteps] using hlt
          exact h6
        · rw [if_neg hlt]
          exact h
    | prev =>
      show (prevStep st).currentStep ≤ 6
      rw [prevStep]
      by_cases h0 : 0 < st.currentStep
      · rw [if_pos h0]
        exact Nat.le_trans (Nat.sub_le _ _) h
      · rw [if_neg h0]
        exact h

/-- C5 witness: from the initial state, a Next on the blank form followed by
a Previous leaves the index within 0..6. -/
theorem nav_currentStep_bounded_witness :
    (runNav { currentStep := 0, message := "" }
        [NavOp.next initialFormData false 2025, NavOp.prev]).currentStep ≤ 6 :=
  nav_currentStep_bounded { currentStep := 0, message := "" }
    [NavOp.next initialFormData false 2025, NavOp.prev] (by decide)

/-- C7: `verifyOtp` with a blank code only surfaces `Please enter the OTP`
and makes no request; across all outcomes, the verified flag ends up true
exactly when it already was, or the code was non-blank and the verify
endpoint replied HTTP-OK with `success: true` — so a server-reported
failure or a network failure leaves an unverified flag false. -/
theorem verifyOtp_verified_iff_success (otp : String) (resp : ApiResponse)
    (st : OtpState) :
    (isBlank otp = true →
        verifyOtpRun otp resp st = { st with message := "Please enter the OTP" })
    ∧ ((verifyOtpRun otp resp st).otpVerified = true ↔
        (st.otpVerified = true ∨
          (isBlank otp = false ∧ ∃ e, resp = ApiResponse.reply true true e))) := by
  constructor
  · intro h
    rw [verifyOtpRun, if_pos h]
  · cases hb : isBlank otp with
    | true =>
      rw [verifyOtpRun, if_pos hb]
      simp
    | false =>
      rw [verifyOtpRun, if_neg (by rw [hb]; exact Bool.false_ne_true)]
      cases resp with
      | reply hOk succ err =>
        cases hOk <;> cases succ <;> simp
      | netFail => simp

/-- C7 witness: with a blank code and an unreachable server, `verifyOtp`
only sets the prompt message and the verified flag stays false. -/
theorem verifyOtp_verified_iff_success_witness :
    verifyOtpRun "" ApiResponse.netFail { otpVerified := false, message := "" } =
      { otpVerified := false, message := "Please enter the OTP" } :=
  (verifyOtp_verified_iff_success "" ApiResponse.netFail
    { otpVerified := false, message := "" }).1 rfl

/-- C4: for every form snapshot, OTP flag, clock year and step index 0..6,
`validateStep` returns a non-null error whenever some required field of
the step is missing or blank after trimming; it returns null when every
required field is filled and the step's cross-field rules pass; and when
the cross-field rules pass but required fields are missing, the verdict is
the single aggregated message listing every missing field's human-readable
label joined by a comma — not a per-field error list. -/
theorem validateStep_required_fields_verdict (fd : FormData) (otp : Bool)
    (year : Int) (step : Nat) (_hstep : step ≤ 6) :
    ((∃ f ∈ requiredFieldsByStep.getD step [], isBlank (fd.get f) = true) →
        validateStep fd otp year step ≠ none)
    ∧ (crossFieldOk fd otp year step = true → missingFields fd step = [] →
        validateStep fd otp year step = none)
    ∧ (crossFieldOk fd otp year step = true → missingFields fd step ≠ [] →
        validateStep fd otp year step = some (missingMessage fd step)) := by
  refine ⟨fun hex => ?_, fun hcross hnil => ?_, fun hcross hne => ?_⟩
  · obtain ⟨f, hfmem, hfblank⟩ := hex
    have hne : missingFields fd step ≠ [] := by
      intro hnil
      have hf : f ∈ missingFields fd step :=
        List.mem_filter.mpr ⟨hfmem, hfblank⟩
      rw [hnil] at hf
      exact List.not_mem_nil f hf
    rw [validateStep]
    cases stepChecks fd otp year step with
    | some m => exact Option.some_ne_none m
    | none =>
      rw [if_neg hne]
      exact Option.some_ne_none _
  · have hsc : stepChecks fd otp year step = none :=
      Option.isNone_iff_eq_none.mp hcross
    rw [validateStep, hsc, if_pos hnil]
  · have hsc : stepChecks fd otp year step = none :=
      Option.isNone_iff_eq_none.mp hcross
    rw [validateStep, hsc, if_neg hne]

/-- C4 witness: on the blank initial form at the address step, every
cross-field rule passes, the four required address fields are missing, and
the verdict is exactly the aggregated missing-field message. -/
theorem validateStep_required_fields_verdict_witness :
    validateStep initialFormData true 2025 1 =
      some (missingMessage initialFormData 1) :=
  (validateStep_required_fields_verdict initialFormData true 2025 1
    (by decide)).2.2 rfl (by decide)

end Enrollex
